import Mathlib

/-!
Verification of the rust-openfire-auth session layer: a shallow embedding of
the credential validator, the authentication state machine (`auth.rs`), the
session/client operations (`communication.rs`) and the handle registry of the
foreign-call boundary (`jni_interface.rs`), together with theorems settling
the specification claims.

Impure inputs of the source (clock readings, elapsed-time measurements, the
uuid nonce used for session ids) are passed as explicit parameters; the
asynchronous sleeps only spend time and are therefore absorbed into those
elapsed-time parameters.  The event channel (`event_tx`) carries no state
relevant to any claim and is omitted from the session record.
-/

deriving instance DecidableEq for Except

namespace OpenFire

/-- `error.rs`: the `OpenFireError` enumeration. -/
inductive OpenFireError where
  | authenticationFailed (message : String)
  | connectionError (message : String)
  | xmppProtocolError (message : String)
  | configError (message : String)
  | tlsError (message : String)
  | timeoutError (seconds : Nat)
  | serializationError (message : String)
  | jniError (message : String)
  | invalidCredentials (message : String)
  | serverUnreachable (server : String)
  | unknown (message : String)
deriving DecidableEq

/-- The `Display` rendering of `OpenFireError` produced by the
`thiserror` attribute strings in `error.rs`. -/
def OpenFireError.display : OpenFireError → String
  | OpenFireError.authenticationFailed m => "Authentication failed: " ++ m
  | OpenFireError.connectionError m => "Connection error: " ++ m
  | OpenFireError.xmppProtocolError m => "XMPP protocol error: " ++ m
  | OpenFireError.configError m => "Configuration error: " ++ m
  | OpenFireError.tlsError m => "TLS/SSL error: " ++ m
  | OpenFireError.timeoutError s =>
      "Timeout error: operation timed out after " ++ toString s ++ " seconds"
  | OpenFireError.serializationError m => "Serialization error: " ++ m
  | OpenFireError.jniError m => "JNI error: " ++ m
  | OpenFireError.invalidCredentials m => "Invalid credentials: " ++ m
  | OpenFireError.serverUnreachable s => "Server not reachable: " ++ s
  | OpenFireError.unknown m => "Unknown error: " ++ m

/-- `config.rs`: the `Config` structure.  `port` is a `u16`, `priority` an
`i8`; both are modelled on unbounded integers, faithful because the source
only reads and range-checks them. -/
structure Config where
  server : String
  port : Nat
  domain : String
  use_tls : Bool
  verify_certificates : Bool
  connection_timeout : Nat
  auth_timeout : Nat
  resource : String
  priority : Int
deriving DecidableEq

/-- `Config::validate` from `config.rs`. -/
def Config.validate (c : Config) : Except OpenFireError Unit :=
  if c.server.isEmpty then
    Except.error (OpenFireError.configError "Server cannot be empty")
  else if c.domain.isEmpty then
    Except.error (OpenFireError.configError "Domain cannot be empty")
  else if c.port = 0 then
    Except.error (OpenFireError.configError "Port must be greater than 0")
  else if c.connection_timeout = 0 || c.auth_timeout = 0 then
    Except.error (OpenFireError.configError "Timeout values must be greater than 0")
  else if c.priority < -128 || c.priority > 127 then
    Except.error (OpenFireError.configError "Priority must be between -128 and 127")
  else Except.ok ()

/-- The `Default::default()` configuration from `config.rs`. -/
def Config.defaultConfig : Config :=
  { server := "localhost", port := 5222, domain := "localhost", use_tls := true,
    verify_certificates := true, connection_timeout := 30, auth_timeout := 10,
    resource := "SparkRust", priority := 1 }

/-- `auth.rs`: the `Credentials` structure. -/
structure Credentials where
  username : String
  password : String
  domain : Option String
deriving DecidableEq

/-- `Credentials::get_jid`. -/
def Credentials.get_jid (c : Credentials) (default_domain : String) : String :=
  c.username ++ "@" ++ c.domain.getD default_domain

/-- `Credentials::validate`: rejects an empty username, an empty password,
and a username containing a space or an at sign.  Character containment
(`str::contains(char)` in the source) is expressed on the character list of
the string. -/
def Credentials.validate (c : Credentials) : Except OpenFireError Unit :=
  if c.username.isEmpty then
    Except.error (OpenFireError.invalidCredentials "Username cannot be empty")
  else if c.password.isEmpty then
    Except.error (OpenFireError.invalidCredentials "Password cannot be empty")
  else if c.username.data.contains ' ' || c.username.data.contains '@' then
    Except.error (OpenFireError.invalidCredentials "Username contains invalid characters")
  else Except.ok ()

/-- `auth.rs`: the `AuthState` enumeration. -/
inductive AuthState where
  | disconnected
  | connecting
  | authenticating
  | authenticated
  | failed (reason : String)
deriving DecidableEq

/-- `auth.rs`: the `AuthResult` structure. -/
structure AuthResult where
  success : Bool
  message : String
  full_jid : Option String
  session_id : Option String
  auth_time_ms : Nat
deriving DecidableEq

/-- `AuthResult::success` (renamed: the field `success` occupies that name). -/
def AuthResult.success_result (full_jid : String) (session_id : Option String)
    (auth_time_ms : Nat) : AuthResult :=
  { success := true, message := "Authentication successful", full_jid := some full_jid,
    session_id := session_id, auth_time_ms := auth_time_ms }

/-- `AuthResult::failure`. -/
def AuthResult.failure (message : String) (auth_time_ms : Nat) : AuthResult :=
  { success := false, message := message, full_jid := none, session_id := none,
    auth_time_ms := auth_time_ms }

/-- `auth.rs`: the `AuthManager` structure (configuration plus current state). -/
structure AuthManager where
  config : Config
  state : AuthState
deriving DecidableEq

/-- `AuthManager::new`: validates the configuration, starts `Disconnected`. -/
def AuthManager.new (config : Config) : Except OpenFireError AuthManager :=
  match config.validate with
  | Except.error e => Except.error e
  | Except.ok _ => Except.ok { config := config, state := AuthState.disconnected }

/-- `AuthManager::is_authenticated`. -/
def AuthManager.is_authenticated (m : AuthManager) : Bool :=
  m.state = AuthState.authenticated

/-- The result computation of `AuthManager::perform_authentication` (after its
state update): the simulated exchange.  `auth_time_ms` is the elapsed-time
measurement the source takes with `Instant` after the 500 ms sleep, and
`session_nonce` the rendering of the generated uuid; both are impure inputs
passed as parameters.  The three error branches are the two hard-coded
rejection triggers and the timeout classification. -/
def AuthManager.auth_exchange (m : AuthManager) (credentials : Credentials)
    (auth_time_ms : Nat) (session_nonce : String) : Except OpenFireError AuthResult :=
  if credentials.username = "invalid" then
    Except.error (OpenFireError.authenticationFailed "Invalid username")
  else if credentials.password = "wrong" then
    Except.error (OpenFireError.authenticationFailed "Invalid password")
  else if auth_time_ms > m.config.auth_timeout * 1000 then
    Except.error (OpenFireError.timeoutError m.config.auth_timeout)
  else
    Except.ok (AuthResult.success_result (credentials.get_jid m.config.domain)
      (some ("session_" ++ session_nonce)) auth_time_ms)

/-- `AuthManager::perform_authentication`: sets `Authenticating`, then runs
the simulated exchange. -/
def AuthManager.perform_authentication (m : AuthManager) (credentials : Credentials)
    (auth_time_ms : Nat) (session_nonce : String) :
    AuthManager × Except OpenFireError AuthResult :=
  ({ m with state := AuthState.authenticating },
   m.auth_exchange credentials auth_time_ms session_nonce)

/-- `AuthManager::authenticate`: validates the credentials (propagating a
validation error without a state change), moves to `Connecting`, runs
`perform_authentication`; on success sets `Authenticated` and returns the
result, on exchange failure sets `Failed` and returns `Ok` of a failure
`AuthResult`.  `perform_elapsed_ms` is the inner elapsed measurement,
`outer_elapsed_ms` the outer one used for the failure result. -/
def AuthManager.authenticate (m : AuthManager) (credentials : Credentials)
    (perform_elapsed_ms outer_elapsed_ms : Nat) (session_nonce : String) :
    AuthManager × Except OpenFireError AuthResult :=
  match credentials.validate with
  | Except.error e => (m, Except.error e)
  | Except.ok _ =>
    match ({ m with state := AuthState.connecting }).perform_authentication
        credentials perform_elapsed_ms session_nonce with
    | (m2, Except.ok result) =>
      ({ m2 with state := AuthState.authenticated }, Except.ok result)
    | (m2, Except.error e) =>
      ({ m2 with state := AuthState.failed ("Authentication failed: " ++ e.display) },
       Except.ok (AuthResult.failure ("Authentication failed: " ++ e.display)
         outer_elapsed_ms))

/-- `AuthManager::disconnect`: always succeeds, lands on `Disconnected`. -/
def AuthManager.disconnect (m : AuthManager) : AuthManager × Except OpenFireError Unit :=
  ({ m with state := AuthState.disconnected }, Except.ok ())

/-- `communication.rs`: the `MessageType` enumeration. -/
inductive MessageType where
  | chat
  | groupChat
  | headline
  | normal
  | error
deriving DecidableEq

/-- `communication.rs`: `current_timestamp()` returns whole seconds since the
epoch; the clock reading is passed in as `now`. -/
def current_timestamp (now : Nat) : Nat := now

/-- `communication.rs`: `generate_message_id()` formats the current
second-granularity timestamp in lowercase hexadecimal after a `msg_` prefix. -/
def generate_message_id (now : Nat) : String :=
  "msg_" ++ String.mk (Nat.toDigits 16 (current_timestamp now))

/-- `communication.rs`: the `Message` structure (`from` and `to` are
reserved words here, embedded as `from_jid` and `to_jid`). -/
structure Message where
  id : String
  from_jid : String
  to_jid : String
  message_type : MessageType
  subject : Option String
  body : String
  timestamp : Nat
  thread : Option String
deriving DecidableEq

/-- `Message::new_chat`. -/
def Message.new_chat (from_jid to_jid body : String) (now : Nat) : Message :=
  { id := generate_message_id now, from_jid := from_jid, to_jid := to_jid,
    message_type := MessageType.chat, subject := none, body := body,
    timestamp := current_timestamp now, thread := none }

/-- `Message::new_group_chat`. -/
def Message.new_group_chat (from_jid to_jid body : String) (now : Nat) : Message :=
  { id := generate_message_id now, from_jid := from_jid, to_jid := to_jid,
    message_type := MessageType.groupChat, subject := none, body := body,
    timestamp := current_timestamp now, thread := none }

/-- `communication.rs`: the `PresenceStatus` enumeration. -/
inductive PresenceStatus where
  | available
  | away
  | extendedAway
  | doNotDisturb
  | unavailable
  | invisible
deriving DecidableEq

/-- `communication.rs`: the `Presence` structure. -/
structure Presence where
  jid : String
  status : PresenceStatus
  status_message : Option String
  priority : Int
  timestamp : Nat
deriving DecidableEq

/-- `Presence::new`: no status message, priority 0, current timestamp. -/
def Presence.new (jid : String) (status : PresenceStatus) (now : Nat) : Presence :=
  { jid := jid, status := status, status_message := none, priority := 0,
    timestamp := current_timestamp now }

/-- `Presence::with_message`. -/
def Presence.with_message (p : Presence) (message : String) : Presence :=
  { p with status_message := some message }

/-- `Presence::with_priority` (present in the source, never called by
`set_presence`). -/
def Presence.with_priority (p : Presence) (priority : Int) : Presence :=
  { p with priority := priority }

/-- `communication.rs`: the `Contact` structure. -/
structure Contact where
  jid : String
  name : Option String
  subscription : String
  groups : List String
  presence : Option Presence
deriving DecidableEq

/-- `communication.rs`: the `ChatRoom` structure. -/
structure ChatRoom where
  jid : String
  name : String
  description : Option String
  subject : Option String
  participants : List String
  joined : Bool
deriving DecidableEq

/-- `HashMap::contains_key` on the association-list embedding of `HashMap`. -/
def mapContains {κ α : Type} [DecidableEq κ] (m : List (κ × α)) (k : κ) : Bool :=
  m.any fun p => decide (p.1 = k)

/-- `HashMap::insert` (replacing any existing entry for the key). -/
def mapInsert {κ α : Type} [DecidableEq κ] (m : List (κ × α)) (k : κ) (v : α) :
    List (κ × α) :=
  (k, v) :: m.filter fun p => decide (¬ p.1 = k)

/-- `HashMap::remove` (dropping any entry for the key). -/
def mapRemove {κ α : Type} [DecidableEq κ] (m : List (κ × α)) (k : κ) :
    List (κ × α) :=
  m.filter fun p => decide (¬ p.1 = k)

/-- `self.current_presence.as_ref().map(|p| p.jid.clone())
.unwrap_or_else(|| "unknown@localhost")`, shared by the send and presence
operations. -/
def presenceJid : Option Presence → String
  | some p => p.jid
  | none => "unknown@localhost"

/-- `communication.rs`: the `OpenFireClient` session structure.  The rosters
are `HashMap`s embedded as association lists; the event channel is omitted
(it carries no session state). -/
structure OpenFireClient where
  config : Config
  auth_manager : AuthManager
  is_connected : Bool
  current_presence : Option Presence
  contacts : List (String × Contact)
  chat_rooms : List (String × ChatRoom)
deriving DecidableEq

/-- `OpenFireClient::new`: validates the configuration through
`AuthManager::new`; fresh sessions are disconnected and empty. -/
def OpenFireClient.new (config : Config) : Except OpenFireError OpenFireClient :=
  match AuthManager.new config with
  | Except.error e => Except.error e
  | Except.ok auth_manager =>
    Except.ok { config := config, auth_manager := auth_manager, is_connected := false,
                current_presence := none, contacts := [], chat_rooms := [] }

/-- `OpenFireClient::connect`: authenticates (propagating an error result),
rejects a failed `AuthResult` as an `AuthenticationFailed` error, and only on
success sets the connected flag and the initial `Available` presence. -/
def OpenFireClient.connect (c : OpenFireClient) (credentials : Credentials)
    (perform_elapsed_ms outer_elapsed_ms now : Nat) (session_nonce : String) :
    OpenFireClient × Except OpenFireError Unit :=
  match c.auth_manager.authenticate credentials perform_elapsed_ms outer_elapsed_ms
      session_nonce with
  | (am, Except.error e) => ({ c with auth_manager := am }, Except.error e)
  | (am, Except.ok auth_result) =>
    if auth_result.success = false then
      ({ c with auth_manager := am },
       Except.error (OpenFireError.authenticationFailed auth_result.message))
    else
      ({ c with
          auth_manager := am,
          is_connected := true,
          current_presence :=
            some (Presence.new (auth_result.full_jid.getD "unknown@localhost")
              PresenceStatus.available now) },
       Except.ok ())

/-- `OpenFireClient::disconnect`: resets the auth state, clears the connected
flag and the presence; always succeeds. -/
def OpenFireClient.disconnect (c : OpenFireClient) :
    OpenFireClient × Except OpenFireError Unit :=
  ({ c with
      auth_manager := (c.auth_manager.disconnect).1,
      is_connected := false,
      current_presence := none },
   Except.ok ())

/-- `OpenFireClient::send_message`: requires the connected flag, then returns
the generated message id. -/
def OpenFireClient.send_message (c : OpenFireClient) (to_jid body : String) (now : Nat) :
    Except OpenFireError String :=
  if c.is_connected = false then
    Except.error (OpenFireError.connectionError "Not connected to server")
  else
    Except.ok (Message.new_chat (presenceJid c.current_presence) to_jid body now).id

/-- `OpenFireClient::send_group_message`: the connected check runs first,
then membership of the room in `chat_rooms`, then the id is returned. -/
def OpenFireClient.send_group_message (c : OpenFireClient) (room_jid body : String)
    (now : Nat) : Except OpenFireError String :=
  if c.is_connected = false then
    Except.error (OpenFireError.connectionError "Not connected to server")
  else if mapContains c.chat_rooms room_jid = false then
    Except.error (OpenFireError.xmppProtocolError ("Not joined to room: " ++ room_jid))
  else
    Except.ok (Message.new_group_chat (presenceJid c.current_presence) room_jid body now).id

/-- `OpenFireClient::set_presence`: requires the connected flag; builds a
fresh `Presence` from the previous jid via `Presence::new` (priority 0),
attaching the optional status message. -/
def OpenFireClient.set_presence (c : OpenFireClient) (status : PresenceStatus)
    (message : Option String) (now : Nat) : OpenFireClient × Except OpenFireError Unit :=
  if c.is_connected = false then
    (c, Except.error (OpenFireError.connectionError "Not connected to server"))
  else
    let presence : Presence :=
      match message with
      | some msg => (Presence.new (presenceJid c.current_presence) status now).with_message msg
      | none => Presence.new (presenceJid c.current_presence) status now
    ({ c with current_presence := some presence }, Except.ok ())

/-- `OpenFireClient::join_room`: requires the connected flag; inserts a
`ChatRoom` named by the part of the jid before the at sign, joined, with the
nickname as sole participant. -/
def OpenFireClient.join_room (c : OpenFireClient) (room_jid nickname : String) :
    OpenFireClient × Except OpenFireError Unit :=
  if c.is_connected = false then
    (c, Except.error (OpenFireError.connectionError "Not connected to server"))
  else
    let chat_room : ChatRoom :=
      { jid := room_jid,
        name := String.mk (room_jid.data.takeWhile fun ch => decide (¬ ch = '@')),
        description := none, subject := none, participants := [nickname],
        joined := true }
    ({ c with chat_rooms := mapInsert c.chat_rooms room_jid chat_room }, Except.ok ())

/-- `OpenFireClient::leave_room`: requires the connected flag; removes the
room entry from `chat_rooms`. -/
def OpenFireClient.leave_room (c : OpenFireClient) (room_jid : String) :
    OpenFireClient × Except OpenFireError Unit :=
  if c.is_connected = false then
    (c, Except.error (OpenFireError.connectionError "Not connected to server"))
  else
    ({ c with chat_rooms := mapRemove c.chat_rooms room_jid }, Except.ok ())

/-- A session-level operation of the lifecycle claims: `connect` (with its
impure inputs) or `disconnect`. -/
inductive ClientOp where
  | connect (credentials : Credentials) (perform_elapsed_ms outer_elapsed_ms now : Nat)
      (session_nonce : String)
  | disconnect

/-- Apply one `ClientOp` to a session, keeping the resulting state. -/
def OpenFireClient.applyOp (c : OpenFireClient) : ClientOp → OpenFireClient
  | ClientOp.connect creds pe oe now nonce => (c.connect creds pe oe now nonce).1
  | ClientOp.disconnect => (c.disconnect).1

/-- Run a sequence of session operations. -/
def OpenFireClient.runClientOps : OpenFireClient → List ClientOp → OpenFireClient
  | c, [] => c
  | c, op :: ops => (c.applyOp op).runClientOps ops

/-- Guard for the amended connected-iff-authenticated invariant: every
`connect` in the sequence is issued while the session is disconnected. -/
def connectGuardB : OpenFireClient → List ClientOp → Bool
  | _, [] => true
  | c, ClientOp.connect creds pe oe now nonce :: ops =>
    (!c.is_connected) && connectGuardB ((c.connect creds pe oe now nonce).1) ops
  | c, ClientOp.disconnect :: ops => connectGuardB (c.disconnect).1 ops

/-- The invariant of claim C2: the connected flag agrees with
`AuthState.authenticated`. -/
def ClientInv (c : OpenFireClient) : Prop :=
  c.is_connected = true ↔ c.auth_manager.state = AuthState.authenticated

/-- `jni_interface.rs`: the global handle registry (`CLIENT_COUNTER` and
`CLIENTS`).  The counter is an `i64` starting at 0 and only ever
incremented. -/
structure Registry where
  counter : Int
  clients : List (Int × OpenFireClient)

/-- The registry at process start. -/
def Registry.init : Registry := { counter := 0, clients := [] }

/-- The allocation performed by `createClient` once the client was built:
increment the counter, store the client under the new handle, return the
handle. -/
def Registry.createClient (r : Registry) (client : OpenFireClient) : Registry × Int :=
  ({ counter := r.counter + 1, clients := mapInsert r.clients (r.counter + 1) client },
   r.counter + 1)

/-- `destroyClient`: remove the entry if present (the removed client is
disconnected and dropped, which does not touch the registry), reporting
whether a client was found. -/
def Registry.destroyClient (r : Registry) (client_id : Int) : Registry × Bool :=
  if mapContains r.clients client_id then
    ({ r with clients := mapRemove r.clients client_id }, true)
  else (r, false)

/-- A registry operation of the foreign boundary: `createClient` with a
configuration (a config that fails validation returns -1 without allocating)
or `destroyClient` with a handle. -/
inductive RegOp where
  | create (config : Config)
  | destroy (client_id : Int)

/-- The handles returned by the successful `create` operations of a sequence,
in order, threading the registry state exactly as the boundary functions do. -/
def Registry.createdHandles : Registry → List RegOp → List Int
  | _, [] => []
  | r, RegOp.create config :: ops =>
    match OpenFireClient.new config with
    | Except.error _ => r.createdHandles ops
    | Except.ok client =>
      (r.createClient client).2 :: (r.createClient client).1.createdHandles ops
  | r, RegOp.destroy client_id :: ops => (r.destroyClient client_id).1.createdHandles ops

/-- The number of creates in a sequence whose configuration passes
validation (the ones that allocate a handle). -/
def validCreates : List RegOp → Nat
  | [] => 0
  | RegOp.create config :: ops =>
    (match OpenFireClient.new config with
     | Except.error _ => 0
     | Except.ok _ => 1) + validCreates ops
  | RegOp.destroy _ :: ops => validCreates ops

/-- Modelled from the spec: the handle sequence the specification promises —
`k` consecutive handles counting up from `c + 1` ("monotonic, starts at 1,
never reused" when `c = 0`).  Used as the reference for the registry
refinement claim. -/
def specHandleSequence (c : Int) : Nat → List Int
  | 0 => []
  | k + 1 => (c + 1) :: specHandleSequence (c + 1) k

/-- Fixture: the manager over the default configuration. -/
def testManager : AuthManager :=
  { config := Config.defaultConfig, state := AuthState.disconnected }

/-- Fixture: the fresh session over the default configuration. -/
def testClient : OpenFireClient :=
  { config := Config.defaultConfig, auth_manager := testManager, is_connected := false,
    current_presence := none, contacts := [], chat_rooms := [] }

/-- Fixture: well-formed credentials accepted by the simulated exchange. -/
def credsGood : Credentials :=
  { username := "testuser", password := "testpass", domain := none }

/-- Fixture: well-formed credentials rejected by the hard-coded trigger. -/
def credsInvalidUser : Credentials :=
  { username := "invalid", password := "testpass", domain := none }

/-- Fixture: credentials with an empty username (format-invalid). -/
def credsEmptyUser : Credentials :=
  { username := "", password := "testpass", domain := none }

/-- Fixture: the session after one successful `connect` at time 0. -/
def connectedClient : OpenFireClient :=
  (testClient.connect credsGood 0 0 0 "n").1

/-- Fixture: the connected session after joining one room. -/
def roomClient : OpenFireClient :=
  (connectedClient.join_room "room@conference.localhost" "nick").1

/-- Fixture for the C2 counterexample: a successful connect followed by a
rejected connect issued while still connected. -/
def cexOps : List ClientOp :=
  [ClientOp.connect credsGood 0 0 0 "n",
   ClientOp.connect credsInvalidUser 0 0 1 "n"]

/-- Fixture for the C2 witness: every connect starts from a disconnected
session. -/
def guardedOps : List ClientOp :=
  [ClientOp.connect credsGood 0 0 0 "n",
   ClientOp.disconnect,
   ClientOp.connect credsInvalidUser 0 0 1 "n"]

/-- The simulated exchange reads only the configuration, not the current
state. -/
theorem auth_exchange_state_irrel (m : AuthManager) (s : AuthState)
    (creds : Credentials) (pe : Nat) (nonce : String) :
    ({ m with state := s }).auth_exchange creds pe nonce =
      m.auth_exchange creds pe nonce := rfl

/-- `authenticate` reduces to one of three shapes: validation error returned
unchanged, exchange success ending `Authenticated`, or exchange failure ending
`Failed` with an `Ok` failure result. -/
theorem authenticate_cases (m : AuthManager) (creds : Credentials) (pe oe : Nat)
    (nonce : String) :
    (∃ e, creds.validate = Except.error e ∧
       m.authenticate creds pe oe nonce = (m, Except.error e)) ∨
    (∃ r, creds.validate = Except.ok () ∧ m.auth_exchange creds pe nonce = Except.ok r ∧
       m.authenticate creds pe oe nonce =
         ({ m with state := AuthState.authenticated }, Except.ok r)) ∨
    (∃ e, creds.validate = Except.ok () ∧ m.auth_exchange creds pe nonce = Except.error e ∧
       m.authenticate creds pe oe nonce =
         ({ m with state := AuthState.failed ("Authentication failed: " ++ e.display) },
          Except.ok (AuthResult.failure ("Authentication failed: " ++ e.display) oe))) := by
  cases hv : creds.validate with
  | error e =>
    refine Or.inl ⟨e, rfl, ?_⟩
    unfold AuthManager.authenticate
    rw [hv]
  | ok u =>
    cases u
    cases hx : m.auth_exchange creds pe nonce with
    | ok r =>
      refine Or.inr (Or.inl ⟨r, rfl, rfl, ?_⟩)
      unfold AuthManager.authenticate AuthManager.perform_authentication
      rw [hv, auth_exchange_state_irrel, hx]
    | error e =>
      refine Or.inr (Or.inr ⟨e, rfl, rfl, ?_⟩)
      unfold AuthManager.authenticate AuthManager.perform_authentication
      rw [hv, auth_exchange_state_irrel, hx]

/-- An exchange success always carries `success = true` (it is built by
`AuthResult::success`). -/
theorem auth_exchange_ok_success (m : AuthManager) (creds : Credentials) (pe : Nat)
    (nonce : String) (r : AuthResult)
    (h : m.auth_exchange creds pe nonce = Except.ok r) : r.success = true := by
  unfold AuthManager.auth_exchange at h
  split_ifs at h
  all_goals
    first
      | exact Except.noConfusion h
      | (injection h with h2
         subst h2
         rfl)

/-- Removing an absent key from the association-list map is the identity. -/
theorem mapRemove_of_not_contains {κ α : Type} [DecidableEq κ] (m : List (κ × α))
    (k : κ) (h : mapContains m k = false) : mapRemove m k = m := by
  rw [mapContains, List.any_eq_false] at h
  rw [mapRemove, List.filter_eq_self]
  intro a ha
  have h2 := h a ha
  simp only [decide_eq_true_eq, decide_eq_false_iff_not] at h2 ⊢
  exact h2

/-- `disconnect` re-establishes the connected-iff-authenticated invariant. -/
theorem clientInv_disconnect (c : OpenFireClient) : ClientInv (c.disconnect).1 := by
  unfold ClientInv OpenFireClient.disconnect AuthManager.disconnect
  exact ⟨fun h => Bool.noConfusion h, fun h => AuthState.noConfusion h⟩

/-- `connect` from a disconnected session preserves the invariant. -/
theorem clientInv_connect (c : OpenFireClient) (creds : Credentials) (pe oe now : Nat)
    (nonce : String) (hInv : ClientInv c) (hdis : c.is_connected = false) :
    ClientInv ((c.connect creds pe oe now nonce).1) := by
  rcases authenticate_cases c.auth_manager creds pe oe nonce with
    ⟨e, hv, hauth⟩ | ⟨r, hv, hx, hauth⟩ | ⟨e, hv, hx, hauth⟩
  · unfold OpenFireClient.connect
    rw [hauth]
    exact hInv
  · have hs := auth_exchange_ok_success c.auth_manager creds pe nonce r hx
    unfold OpenFireClient.connect ClientInv
    rw [hauth]
    simp [hs]
  · unfold OpenFireClient.connect ClientInv
    rw [hauth]
    simp [AuthResult.failure, hdis]

/-- Running a guarded sequence of operations preserves the invariant. -/
theorem clientInv_run (ops : List ClientOp) : ∀ c : OpenFireClient, ClientInv c →
    connectGuardB c ops = true → ClientInv (c.runClientOps ops) := by
  induction ops with
  | nil => exact fun c h _ => h
  | cons op ops ih =>
    intro c hInv hg
    cases op with
    | connect creds pe oe now nonce =>
      rw [connectGuardB, Bool.and_eq_true] at hg
      have hdis : c.is_connected = false := by
        have h1 := hg.1
        rwa [Bool.not_eq_true'] at h1
      exact ih _ (clientInv_connect c creds pe oe now nonce hInv hdis) hg.2
    | disconnect =>
      rw [connectGuardB] at hg
      exact ih _ (clientInv_disconnect c) hg

/-- A freshly constructed session satisfies the invariant and starts
disconnected. -/
theorem new_clientInv (config : Config) (c : OpenFireClient)
    (h : OpenFireClient.new config = Except.ok c) :
    ClientInv c ∧ c.is_connected = false := by
  unfold OpenFireClient.new AuthManager.new at h
  cases hv : config.validate with
  | error e =>
    rw [hv] at h
    exact Except.noConfusion h
  | ok u =>
    cases u
    rw [hv] at h
    injection h with h2
    subst h2
    refine ⟨?_, rfl⟩
    unfold ClientInv
    exact ⟨fun h3 => Bool.noConfusion h3, fun h3 => AuthState.noConfusion h3⟩

/-- `destroyClient` never touches the handle counter. -/
theorem destroyClient_counter (r : Registry) (h : Int) :
    (r.destroyClient h).1.counter = r.counter := by
  unfold Registry.destroyClient
  split <;> rfl

/-- The handles a sequence of registry operations returns are exactly the
specified consecutive run above the starting counter. -/
theorem createdHandles_eq_spec (ops : List RegOp) : ∀ r : Registry,
    r.createdHandles ops = specHandleSequence r.counter (validCreates ops) := by
  induction ops with
  | nil => exact fun r => rfl
  | cons op ops ih =>
    intro r
    cases op with
    | create config =>
      cases hnew : OpenFireClient.new config with
      | error e =>
        simp only [Registry.createdHandles, validCreates, hnew, Nat.zero_add]
        exact ih r
      | ok client =>
        simp only [Registry.createdHandles, validCreates, hnew]
        rw [ih ((r.createClient client).1), Nat.add_comm 1 (validCreates ops)]
        rfl
    | destroy h =>
      simp only [Registry.createdHandles, validCreates]
      rw [ih ((r.destroyClient h).1), destroyClient_counter]

/-- Every member of the specified handle run exceeds the starting counter. -/
theorem specHandleSequence_mem_gt (k : Nat) : ∀ (c a : Int),
    a ∈ specHandleSequence c k → c < a := by
  induction k with
  | zero => exact fun c a h => absurd h (List.not_mem_nil a)
  | succ k ih =>
    intro c a h
    rw [specHandleSequence] at h
    rcases List.mem_cons.mp h with h1 | h2
    · omega
    · have h3 := ih (c + 1) a h2
      omega

/-- The specified handle run is strictly increasing. -/
theorem specHandleSequence_pairwise_lt (k : Nat) : ∀ c : Int,
    List.Pairwise (fun a b : Int => a < b) (specHandleSequence c k) := by
  induction k with
  | zero => exact fun c => List.Pairwise.nil
  | succ k ih =>
    intro c
    rw [specHandleSequence]
    refine List.Pairwise.cons ?_ (ih (c + 1))
    intro b hb
    have h := specHandleSequence_mem_gt k (c + 1) b hb
    omega

/-- The specified handle run starts right above the counter. -/
theorem specHandleSequence_head (k : Nat) (c : Int) :
    (specHandleSequence c k).head? = if k = 0 then none else some (c + 1) := by
  cases k with
  | zero => rfl
  | succ k => rfl

/-- C1: for credentials passing format validation, a failing authentication
exchange (the hard-coded rejection triggers and the timeout classification
are exactly the error cases of `auth_exchange`) makes `authenticate` return
`Ok` of an `AuthResult` with `success = false`; an `Err` from `authenticate`
is always the credential-format validation error itself. -/
theorem authenticate_two_level_errors (m : AuthManager) (creds : Credentials)
    (pe oe : Nat) (nonce : String) :
    (∀ e, (m.authenticate creds pe oe nonce).2 = Except.error e →
       creds.validate = Except.error e) ∧
    (creds.validate = Except.ok () →
      ∀ e, m.auth_exchange creds pe nonce = Except.error e →
        ∃ r, (m.authenticate creds pe oe nonce).2 = Except.ok r ∧ r.success = false) := by
  constructor
  · intro e he
    rcases authenticate_cases m creds pe oe nonce with
      ⟨e2, hv, hauth⟩ | ⟨r, hv, hx, hauth⟩ | ⟨e2, hv, hx, hauth⟩
    · rw [hauth] at he
      injection he with he2
      rw [← he2]
      exact hv
    · rw [hauth] at he
      exact Except.noConfusion he
    · rw [hauth] at he
      exact Except.noConfusion he
  · intro hv e hx
    rcases authenticate_cases m creds pe oe nonce with
      ⟨e2, hv2, hauth⟩ | ⟨r, hv2, hx2, hauth⟩ | ⟨e2, hv2, hx2, hauth⟩
    · rw [hv] at hv2
      exact Except.noConfusion hv2
    · rw [hx] at hx2
      exact Except.noConfusion hx2
    · exact ⟨_, by rw [hauth], rfl⟩

/-- Witness for C1 at the hard-coded "invalid" username rejection trigger. -/
theorem authenticate_two_level_errors_witness :
    ∃ r, (testManager.authenticate credsInvalidUser 0 0 "n").2 = Except.ok r ∧
      r.success = false :=
  (authenticate_two_level_errors testManager credsInvalidUser 0 0 "n").2 (by decide)
    (OpenFireError.authenticationFailed "Invalid username") (by decide)

/-- C2 counterexample: from a fresh session, a successful connect followed by
a connect whose exchange is rejected ends with `connected = true` while the
auth state is `Failed`, so the claimed iff fails on a reachable state. -/
theorem connected_iff_authenticated_cex :
    OpenFireClient.new Config.defaultConfig = Except.ok testClient ∧
    (testClient.runClientOps cexOps).is_connected = true ∧
    (testClient.runClientOps cexOps).auth_manager.state ≠ AuthState.authenticated := by
  have hst : (testClient.runClientOps cexOps).auth_manager.state =
      AuthState.failed "Authentication failed: Authentication failed: Invalid username" := by
    decide
  refine ⟨by decide, by decide, ?_⟩
  intro h
  rw [hst] at h
  exact AuthState.noConfusion h

/-- C2 amended: the connected flag is true iff the auth state is
`Authenticated`, for every state reached by a sequence of connect/disconnect
operations in which `connect` is only invoked while the session is
disconnected (a failing `connect` on an already-connected session instead
leaves `connected = true` with a `Failed` state). -/
theorem connected_iff_authenticated_guarded (config : Config) (c : OpenFireClient)
    (ops : List ClientOp) (hnew : OpenFireClient.new config = Except.ok c)
    (hguard : connectGuardB c ops = true) :
    ((c.runClientOps ops).is_connected = true ↔
      (c.runClientOps ops).auth_manager.state = AuthState.authenticated) :=
  clientInv_run ops c (new_clientInv config c hnew).1 hguard

/-- Witness for the amended C2 on a guarded three-operation sequence. -/
theorem connected_iff_authenticated_guarded_witness :
    ((testClient.runClientOps guardedOps).is_connected = true ↔
      (testClient.runClientOps guardedOps).auth_manager.state = AuthState.authenticated) :=
  connected_iff_authenticated_guarded Config.defaultConfig testClient guardedOps
    (by decide) (by decide)

/-- C3 counterexample: with format-invalid credentials (empty username),
`authenticate` returns before any transition and the state stays
`Disconnected` — neither `Authenticated` nor `Failed`. -/
theorem authenticate_state_cex :
    (testManager.authenticate credsEmptyUser 0 0 "n").1.state = AuthState.disconnected ∧
    ¬ ((testManager.authenticate credsEmptyUser 0 0 "n").1.state = AuthState.authenticated ∨
       ∃ s, (testManager.authenticate credsEmptyUser 0 0 "n").1.state =
         AuthState.failed s) := by
  have hst : (testManager.authenticate credsEmptyUser 0 0 "n").1.state =
      AuthState.disconnected := by decide
  refine ⟨hst, ?_⟩
  rintro (h | ⟨s, h⟩) <;> rw [hst] at h <;> exact AuthState.noConfusion h

/-- C3 amended: for every starting state, if validation succeeds the state
after `authenticate` is `Authenticated` or `Failed`; if validation fails the
manager is returned unchanged (so the state is only `Connecting` or
`Authenticating` if it already was). -/
theorem authenticate_terminal_state (m : AuthManager) (creds : Credentials)
    (pe oe : Nat) (nonce : String) :
    (creds.validate = Except.ok () →
      ((m.authenticate creds pe oe nonce).1.state = AuthState.authenticated ∨
       ∃ s, (m.authenticate creds pe oe nonce).1.state = AuthState.failed s)) ∧
    (∀ e, creds.validate = Except.error e → (m.authenticate creds pe oe nonce).1 = m) := by
  constructor
  · intro hv
    rcases authenticate_cases m creds pe oe nonce with
      ⟨e, hv2, hauth⟩ | ⟨r, hv2, hx, hauth⟩ | ⟨e, hv2, hx, hauth⟩
    · rw [hv] at hv2
      exact Except.noConfusion hv2
    · left
      rw [hauth]
    · right
      exact ⟨_, by rw [hauth]⟩
  · intro e hv
    rcases authenticate_cases m creds pe oe nonce with
      ⟨e2, hv2, hauth⟩ | ⟨r, hv2, hx, hauth⟩ | ⟨e2, hv2, hx, hauth⟩
    · rw [hauth]
    · rw [hv] at hv2
      exact Except.noConfusion hv2
    · rw [hv] at hv2
      exact Except.noConfusion hv2

/-- Witness for the amended C3: a successful run ends `Authenticated`. -/
theorem authenticate_terminal_state_witness :
    (testManager.authenticate credsGood 0 0 "n").1.state = AuthState.authenticated ∨
    ∃ s, (testManager.authenticate credsGood 0 0 "n").1.state = AuthState.failed s :=
  (authenticate_terminal_state testManager credsGood 0 0 "n").1 (by decide)

/-- C4: `validate` errs exactly when the username is empty, the password is
empty, or the username contains a space or an at sign; all other credentials
validate successfully.  The embedding is a pure function of the credentials
record, mirroring the side-effect-free source. -/
theorem validate_err_iff (c : Credentials) :
    ((∃ e, c.validate = Except.error e) ↔
      (c.username.isEmpty = true ∨ c.password.isEmpty = true ∨
       c.username.data.contains ' ' = true ∨ c.username.data.contains '@' = true)) ∧
    (c.validate = Except.ok () ↔
      (c.username.isEmpty = false ∧ c.password.isEmpty = false ∧
       c.username.data.contains ' ' = false ∧ c.username.data.contains '@' = false)) := by
  unfold Credentials.validate
  split_ifs with h1 h2 h3
  · simp_all
  · simp_all
  · rw [Bool.or_eq_true] at h3
    rcases h3 with h3 | h3 <;> simp_all
  · rw [Bool.or_eq_true] at h3
    push_neg at h3
    simp_all

/-- Witness for C4: a username with a space is rejected. -/
theorem validate_err_iff_witness :
    ∃ e, (Credentials.mk "bad user" "pw" none).validate = Except.error e :=
  ((validate_err_iff (Credentials.mk "bad user" "pw" none)).1).mpr
    (Or.inr (Or.inr (Or.inl (by decide))))

/-- C5 (evidence for the code bug): the generated message id is just the
lowercase hex of the second-granularity timestamp, so two distinct successful
sends during the same clock second (here second 1000) return the identical
identifier. -/
theorem send_message_id_collision :
    connectedClient.send_message "alice@localhost" "first" 1000 = Except.ok "msg_3e8" ∧
    connectedClient.send_message "bob@localhost" "second" 1000 = Except.ok "msg_3e8" :=
  ⟨by decide, by decide⟩

/-- C6: `send_group_message` fails with the "not connected" `ConnectionError`
whenever the connected flag is false (regardless of room membership, so the
connectivity check runs first); when connected but the room is not a key of
the rooms map it fails with the "not joined" protocol error; when connected
and joined it succeeds with the generated id. -/
theorem send_group_message_checks (c : OpenFireClient) (room_jid body : String)
    (now : Nat) :
    (c.is_connected = false →
       c.send_group_message room_jid body now =
         Except.error (OpenFireError.connectionError "Not connected to server")) ∧
    (c.is_connected = true → mapContains c.chat_rooms room_jid = false →
       c.send_group_message room_jid body now =
         Except.error (OpenFireError.xmppProtocolError ("Not joined to room: " ++ room_jid))) ∧
    (c.is_connected = true → mapContains c.chat_rooms room_jid = true →
       c.send_group_message room_jid body now = Except.ok (generate_message_id now)) := by
  refine ⟨fun h1 => ?_, fun h1 h2 => ?_, fun h1 h2 => ?_⟩
  · simp [OpenFireClient.send_group_message, h1]
  · simp [OpenFireClient.send_group_message, h1, h2]
  · simp [OpenFireClient.send_group_message, h1, h2, Message.new_group_chat]

/-- Witness for C6 on a connected session that joined the room. -/
theorem send_group_message_checks_witness :
    roomClient.send_group_message "room@conference.localhost" "hi" 7 =
      Except.ok (generate_message_id 7) :=
  (send_group_message_checks roomClient "room@conference.localhost" "hi" 7).2.2
    (by decide) (by decide)

/-- C7 counterexample: on a session that never joined any room (and is
disconnected), `leave_room` does fail — with the "not connected" error — so
the unqualified claim is false. -/
theorem leave_room_unjoined_cex :
    mapContains testClient.chat_rooms "room@conference.localhost" = false ∧
    (testClient.leave_room "room@conference.localhost").2 =
      Except.error (OpenFireError.connectionError "Not connected to server") :=
  ⟨by decide, by decide⟩

/-- C7 amended: on a connected session, `leave_room` on a never-joined room
succeeds and leaves the session — in particular the rooms map — unchanged. -/
theorem leave_room_unjoined_noop (c : OpenFireClient) (room_jid : String)
    (hc : c.is_connected = true) (hn : mapContains c.chat_rooms room_jid = false) :
    (c.leave_room room_jid).1 = c ∧ (c.leave_room room_jid).2 = Except.ok () := by
  have hcond : ¬ (c.is_connected = false) := by
    rw [hc]
    exact fun h => Bool.noConfusion h
  unfold OpenFireClient.leave_room
  rw [if_neg hcond, mapRemove_of_not_contains c.chat_rooms room_jid hn]
  exact ⟨rfl, rfl⟩

/-- Witness for the amended C7 on the connected fixture session. -/
theorem leave_room_unjoined_noop_witness :
    (connectedClient.leave_room "nowhere@conference.localhost").1 = connectedClient ∧
    (connectedClient.leave_room "nowhere@conference.localhost").2 = Except.ok () :=
  leave_room_unjoined_noop connectedClient "nowhere@conference.localhost"
    (by decide) (by decide)

/-- C8: over every sequence of registry create/destroy operations from
process start, the handles returned by the successful creates form the
consecutive run 1, 2, 3, … — strictly increasing, pairwise distinct (so a
handle removed by destroy is never allocated again), starting at 1. -/
theorem registry_create_handles (ops : List RegOp) :
    Registry.init.createdHandles ops = specHandleSequence 0 (validCreates ops) ∧
    List.Pairwise (fun a b : Int => a < b) (Registry.init.createdHandles ops) ∧
    List.Pairwise (fun a b : Int => a ≠ b) (Registry.init.createdHandles ops) ∧
    (Registry.init.createdHandles ops).head? =
      (if validCreates ops = 0 then none else some 1) := by
  have h := createdHandles_eq_spec ops Registry.init
  refine ⟨h, ?_, ?_, ?_⟩
  · rw [h]
    exact specHandleSequence_pairwise_lt (validCreates ops) 0
  · rw [h]
    exact (specHandleSequence_pairwise_lt (validCreates ops) 0).imp
      (fun hlt => ne_of_lt hlt)
  · rw [h, specHandleSequence_head]
    norm_num [Registry.init]

/-- C9: whenever `connect` returns an error (format rejection or
authentication rejection), the connected flag, the presence, the roster and
the rooms map all keep exactly their prior values. -/
theorem connect_error_preserves (c : OpenFireClient) (creds : Credentials)
    (pe oe now : Nat) (nonce : String) (e : OpenFireError)
    (h : (c.connect creds pe oe now nonce).2 = Except.error e) :
    (c.connect creds pe oe now nonce).1.is_connected = c.is_connected ∧
    (c.connect creds pe oe now nonce).1.current_presence = c.current_presence ∧
    (c.connect creds pe oe now nonce).1.contacts = c.contacts ∧
    (c.connect creds pe oe now nonce).1.chat_rooms = c.chat_rooms := by
  rcases authenticate_cases c.auth_manager creds pe oe nonce with
    ⟨e2, hv, hauth⟩ | ⟨r, hv, hx, hauth⟩ | ⟨e2, hv, hx, hauth⟩
  · unfold OpenFireClient.connect
    rw [hauth]
    exact ⟨rfl, rfl, rfl, rfl⟩
  · have hs := auth_exchange_ok_success c.auth_manager creds pe nonce r hx
    unfold OpenFireClient.connect at h
    rw [hauth] at h
    simp [hs] at h
  · unfold OpenFireClient.connect
    rw [hauth]
    exact ⟨rfl, rfl, rfl, rfl⟩

/-- Witness for C9 at an authentication rejection on the fresh session. -/
theorem connect_error_preserves_witness :
    (testClient.connect credsInvalidUser 0 0 0 "n").1.is_connected =
      testClient.is_connected ∧
    (testClient.connect credsInvalidUser 0 0 0 "n").1.current_presence =
      testClient.current_presence ∧
    (testClient.connect credsInvalidUser 0 0 0 "n").1.contacts = testClient.contacts ∧
    (testClient.connect credsInvalidUser 0 0 0 "n").1.chat_rooms =
      testClient.chat_rooms :=
  connect_error_preserves testClient credsInvalidUser 0 0 0 "n"
    (OpenFireError.authenticationFailed
      "Authentication failed: Authentication failed: Invalid username") (by decide)

/-- C10: on a connected session with an existing presence, `set_presence`
replaces it with a presence carrying the previous jid, the given status and
message, and priority 0 — for every configuration, so the configured
`priority` field is never applied. -/
theorem set_presence_replaces (c : OpenFireClient) (status : PresenceStatus)
    (message : Option String) (now : Nat) (p : Presence)
    (hc : c.is_connected = true) (hp : c.current_presence = some p) :
    (c.set_presence status message now).1.current_presence =
      some { jid := p.jid, status := status, status_message := message, priority := 0,
             timestamp := now } ∧
    (c.set_presence status message now).2 = Except.ok () := by
  unfold OpenFireClient.set_presence
  rw [hc]
  cases message with
  | none => simp [presenceJid, hp, Presence.new, current_timestamp]
  | some msg =>
    simp [presenceJid, hp, Presence.new, Presence.with_message, current_timestamp]

/-- Witness for C10: the fixture configuration has priority 1, yet the
replaced presence has priority 0. -/
theorem set_presence_replaces_witness :
    (connectedClient.set_presence PresenceStatus.away (some "brb") 5).1.current_presence =
      some { jid := "testuser@localhost", status := PresenceStatus.away,
             status_message := some "brb", priority := 0, timestamp := 5 } ∧
    (connectedClient.set_presence PresenceStatus.away (some "brb") 5).2 = Except.ok () :=
  set_presence_replaces connectedClient PresenceStatus.away (some "brb") 5
    { jid := "testuser@localhost", status := PresenceStatus.available,
      status_message := none, priority := 0, timestamp := 0 } (by decide) (by decide)

end OpenFire
